import Mathlib

/-!
Shallow embedding of the vetCheck backend service (src/main/app.py) and
verification of its specification claims.

The service is a Flask app around one external chat-completion provider.
The embedding models, from the source:
  - the JSON value space and the Python-level operations the handlers use
    on parsed replies (truthiness, `in`, subscripting, `dict.get`, iteration);
  - the response coercer `process_response` (strict parse, then the greedy
    brace-delimited fallback of the regex search);
  - the ranking helpers `get_diagnoses` and `get_highest_ranked_diagnosis`;
  - the tenacity retry policy (`wait_exponential(multiplier=1, min=2, max=5)`,
    `stop_after_attempt(2)`, default `reraise=False` so exhaustion raises a
    `RetryError` wrapping the last exception);
  - the `functools.lru_cache(maxsize=128)` memoizer on
    `query_veterinary_details`;
  - the two request handlers `diagnose` and `veterinary_details`, with their
    try/except boundaries.

External calls are modelled by an oracle giving each attempt an outcome, and
the handlers additionally report how many external attempts they issued, so
that call-count claims are statable.  `json.loads` is abstracted as a
parameter `loads` in the general theorems; a concrete executable model
`json_loads` (strict JSON restricted to integer numerals and escape-free
strings) instantiates it in closed witnesses and counterexamples.
-/

namespace VetCheck

/-- The opening brace character. -/
def lbrace : Char := '\x7b'

/-- The closing brace character. -/
def rbrace : Char := '\x7d'

/-- Boolean test that `pat` occurs at the head of `l`. -/
def matchesAt : List Char → List Char → Bool
  | [], _ => true
  | _ :: _, [] => false
  | a :: as, b :: bs => a == b && matchesAt as bs

/-- Boolean test that `pat` occurs somewhere inside `l`. -/
def occursIn (pat : List Char) : List Char → Bool
  | [] => pat.isEmpty
  | c :: rest => matchesAt pat (c :: rest) || occursIn pat rest

/-- Model of the Python substring test `pat in s`. -/
def strContains (pat s : String) : Bool := occursIn pat.toList s.toList

/-- JSON values, as produced by the provider reply parser. -/
inductive Json where
  | null : Json
  | bool (b : Bool) : Json
  | num (n : Int) : Json
  | str (s : String) : Json
  | arr (elems : List Json) : Json
  | obj (members : List (String × Json)) : Json

/-- Python truthiness of a parsed JSON value. -/
def truthy : Json → Bool
  | .null => false
  | .bool b => b
  | .num n => n != 0
  | .str s => !s.isEmpty
  | .arr elems => !elems.isEmpty
  | .obj members => !members.isEmpty

/-- Truthiness of the coercer result (`None` is falsy). -/
def optTruthy : Option Json → Bool
  | none => false
  | some j => truthy j

/-- Key lookup in the member list of a JSON object. -/
def lookupKey (members : List (String × Json)) (k : String) : Option Json :=
  (members.find? (fun p => p.1 == k)).map (fun p => p.2)

/-- Python exceptions reachable in this program, with the retry wrapper. -/
inductive PyErr where
  | exception (msg : String) : PyErr
  | keyError (key : String) : PyErr
  | typeError (msg : String) : PyErr
  | attributeError (msg : String) : PyErr
  | openAIError (status : Option Int) (msg : String) : PyErr
  | retryError (inner : PyErr) : PyErr

/-- The Python class name of an exception. -/
def PyErr.typeName : PyErr → String
  | .exception _ => "Exception"
  | .keyError _ => "KeyError"
  | .typeError _ => "TypeError"
  | .attributeError _ => "AttributeError"
  | .openAIError _ _ => "OpenAIError"
  | .retryError _ => "RetryError"

/-- Model of Python `str(e)`.  A tenacity `RetryError` prints the wrapped
future (which shows only the class name of the raised exception), so the
message of the wrapped exception does not occur in it. -/
def PyErr.str : PyErr → String
  | .exception m => m
  | .keyError k => "'" ++ k ++ "'"
  | .typeError m => m
  | .attributeError m => m
  | .openAIError _ m => m
  | .retryError inner =>
      "RetryError[<Future state=finished raised " ++ inner.typeName ++ ">]"

/-- Model of Python subscripting `j[k]` with a string key. -/
def Json.getItem (j : Json) (k : String) : Except PyErr Json :=
  match j with
  | .obj members =>
      match lookupKey members k with
      | some v => .ok v
      | none => .error (.keyError k)
  | .arr _ => .error (.typeError "list indices must be integers or slices, not str")
  | .str _ => .error (.typeError "string indices must be integers")
  | .num _ => .error (.typeError "int object is not subscriptable")
  | .bool _ => .error (.typeError "bool object is not subscriptable")
  | .null => .error (.typeError "NoneType object is not subscriptable")

/-- Model of Python `j.get(k, default)`; only dictionaries have `.get`. -/
def Json.dictGet (j : Json) (k : String) (dflt : Json) : Except PyErr Json :=
  match j with
  | .obj members => .ok ((lookupKey members k).getD dflt)
  | _ => .error (.attributeError "object has no attribute get")

/-- Model of Python iteration over a value (lists yield elements,
dictionaries yield keys, strings yield one-character strings). -/
def Json.iterate : Json → Except PyErr (List Json)
  | .arr elems => .ok elems
  | .obj members => .ok (members.map (fun p => Json.str p.1))
  | .str s => .ok (s.toList.map (fun ch => Json.str (String.mk [ch])))
  | _ => .error (.typeError "object is not iterable")

/-- Python equality of a JSON value with a string (only strings compare
equal to strings). -/
def Json.eqString : Json → String → Bool
  | .str s, k => s == k
  | _, _ => false

/-- Model of the Python membership test `k in j` for a string `k`. -/
def pyContains (j : Json) (k : String) : Except PyErr Bool :=
  match j with
  | .obj members => .ok (members.any (fun p => p.1 == k))
  | .arr elems => .ok (elems.any (fun x => Json.eqString x k))
  | .str s => .ok (strContains k s)
  | _ => .error (.typeError "argument is not iterable")

/-- One extracted condition, following the data model
(`name : string`, `likelihood : number`, `explanation : string`). -/
structure Condition where
  name : String
  likelihood : Int
  explanation : String

/-- The f-string rendering of one condition, from
`f"{d['name']} ({d['likelihood']}%)"`. -/
def fmtCondition (d : Condition) : String :=
  d.name ++ " (" ++ toString d.likelihood ++ "%)"

/-- Model of `max(results, key=lambda x: x["likelihood"])` on a nonempty
list: Python keeps the first element whose key all later keys fail to
exceed strictly. -/
def pyMax (x : Condition) (xs : List Condition) : Condition :=
  xs.foldl (fun acc c => if acc.likelihood < c.likelihood then c else acc) x

/-- The descending comparison used by
`sorted(results, key=lambda x: x["likelihood"], reverse=True)`. -/
abbrev likGe (c d : Condition) : Prop := d.likelihood ≤ c.likelihood

/-- Model of the Python stable descending sort by likelihood (Python
`sorted` is stable, also with `reverse=True`; insertion sort is the same
stable sort). -/
def pySortDesc (results : List Condition) : List Condition :=
  List.insertionSort likGe results

/-- Direct translation of `get_highest_ranked_diagnosis` (app.py lines
77 to 85).  The source binds the maximum before the length branch; it is
used only in the short branch. -/
def get_highest_ranked_diagnosis (results : List Condition) : String :=
  match results with
  | [] => "No diagnosis available"
  | x :: xs =>
    if 3 ≤ (x :: xs).length then
      "Top 3 possible diagnoses: " ++
        String.intercalate ", " (((pySortDesc (x :: xs)).take 3).map fmtCondition)
    else
      fmtCondition (pyMax x xs)

/-- One entry of the dict comprehension in `get_diagnoses`: evaluates
`c["name"]`, then `c["likelihood"]`, then `c.get("explanation", "")`, in
that order.  The model requires a string name, an integer likelihood and a
string explanation; Python would defer such type errors to the later
comparison or formatting steps. -/
def extractCondition (c : Json) : Except PyErr Condition :=
  match c.getItem "name" with
  | .error e => .error e
  | .ok nm =>
    match c.getItem "likelihood" with
    | .error e => .error e
    | .ok lk =>
      match c.dictGet "explanation" (Json.str "") with
      | .error e => .error e
      | .ok ex =>
        match nm, lk, ex with
        | .str n, .num l, .str x => .ok ⟨n, l, x⟩
        | _, _, _ => .error (.typeError "condition fields have unexpected types")

/-- The list comprehension of `get_diagnoses`: entries are extracted left
to right and the first raise escapes. -/
def mapExtract : List Json → Except PyErr (List Condition)
  | [] => .ok []
  | c :: cs =>
    match extractCondition c with
    | .error e => .error e
    | .ok x =>
      match mapExtract cs with
      | .error e => .error e
      | .ok xs => .ok (x :: xs)

/-- Direct translation of `get_diagnoses` (app.py lines 72 to 75). -/
def get_diagnoses (response : Option Json) : Except PyErr (List Condition) :=
  match response with
  | none => .ok []
  | some r =>
    if truthy r then
      match pyContains r "conditions" with
      | .error e => .error e
      | .ok false => .ok []
      | .ok true =>
        match r.getItem "conditions" with
        | .error e => .error e
        | .ok cj =>
          match cj.iterate with
          | .error e => .error e
          | .ok cs => mapExtract cs
    else .ok []

/-- The greedy regex search of the coercer: the pattern matches from the
first opening brace through the last closing brace of the text, provided
the last closing brace comes after the first opening brace. -/
def braceMatch (cs : List Char) : Option (List Char) :=
  let rest := cs.dropWhile (fun ch => ch != lbrace)
  let core := (rest.reverse.dropWhile (fun ch => ch != rbrace)).reverse
  if 2 ≤ core.length then some core else none

/-- The matched substring of the brace fallback, as a string. -/
def braceSubstring (s : String) : Option String :=
  (braceMatch s.toList).map String.mk

/-- Direct translation of `process_response` (app.py lines 56 to 70),
abstracted over the strict JSON parser `loads`.  The same lines are
duplicated verbatim inside `query_veterinary_details` (lines 169 to 180),
which reuses this definition. -/
def process_response (loads : String → Option Json) (content : String) : Option Json :=
  match loads content with
  | some j => some j
  | none =>
    match braceSubstring content with
    | some s => loads s
    | none => none

/-! ### A concrete executable model of `json.loads`

Restricted to strict JSON with integer numerals and escape-free strings;
numbers with a fraction or exponent and strings containing a backslash are
rejected.  It is used only to instantiate the abstract parser in closed
witnesses and counterexamples, on inputs inside the modelled fragment. -/

/-- Skip JSON whitespace. -/
def skipWs : List Char → List Char
  | [] => []
  | c :: cs => if c = ' ' ∨ c = '\n' ∨ c = '\t' ∨ c = '\r' then skipWs cs else c :: cs

/-- Consume an expected literal character sequence. -/
def dropLiteral : List Char → List Char → Option (List Char)
  | [], rest => some rest
  | p :: ps, c :: rest => if p = c then dropLiteral ps rest else none
  | _ :: _, [] => none

/-- Parse the body of a JSON string after the opening quote (escape
sequences are outside the modelled fragment). -/
def parseStringChars : List Char → Option (List Char × List Char)
  | [] => none
  | c :: cs =>
    if c = '"' then some ([], cs)
    else if c = '\\' then none
    else (parseStringChars cs).map (fun p => (c :: p.1, p.2))

/-- Numeric value of a digit character. -/
def digitVal (c : Char) : ℕ := c.toNat - '0'.toNat

/-- Value of a digit sequence. -/
def digitsToNat (ds : List Char) : ℕ := ds.foldl (fun a c => 10 * a + digitVal c) 0

/-- JSON integer digit sequences: one digit, or several without a leading
zero. -/
def validIntDigits : List Char → Bool
  | [] => false
  | [_] => true
  | c :: _ :: _ => c != '0'

/-- Parse a JSON integer numeral (a following fraction or exponent puts the
input outside the modelled fragment). -/
def parseNumber (cs : List Char) : Option (Json × List Char) :=
  let signSplit : Bool × List Char :=
    match cs with
    | c :: rest => if c = '-' then (true, rest) else (false, cs)
    | [] => (false, [])
  let ds := signSplit.2.takeWhile Char.isDigit
  let rest := signSplit.2.dropWhile Char.isDigit
  if validIntDigits ds then
    let v : Int := if signSplit.1 then -(digitsToNat ds : Int) else (digitsToNat ds : Int)
    match rest with
    | [] => some (Json.num v, [])
    | c :: _ => if c = '.' ∨ c = 'e' ∨ c = 'E' then none else some (Json.num v, rest)
  else none

mutual

/-- Parse one JSON value (fuel-indexed recursive descent). -/
def parseVal : ℕ → List Char → Option (Json × List Char)
  | 0, _ => none
  | fuel + 1, cs =>
    match skipWs cs with
    | [] => none
    | c :: rest =>
      if c = 'n' then (dropLiteral ['u', 'l', 'l'] rest).map (fun r => (Json.null, r))
      else if c = 't' then (dropLiteral ['r', 'u', 'e'] rest).map (fun r => (Json.bool true, r))
      else if c = 'f' then (dropLiteral ['a', 'l', 's', 'e'] rest).map (fun r => (Json.bool false, r))
      else if c = '"' then (parseStringChars rest).map (fun p => (Json.str (String.mk p.1), p.2))
      else if c = '-' ∨ c.isDigit then parseNumber (c :: rest)
      else if c = '[' then parseElemsStart fuel rest
      else if c = lbrace then parseMembersStart fuel rest
      else none

/-- Parse an array body after the opening bracket. -/
def parseElemsStart : ℕ → List Char → Option (Json × List Char)
  | 0, _ => none
  | fuel + 1, cs =>
    match skipWs cs with
    | ']' :: rest => some (Json.arr [], rest)
    | cs1 =>
      (parseVal fuel cs1).bind (fun p =>
        (parseElemsRest fuel p.2).map (fun q => (Json.arr (p.1 :: q.1), q.2)))

/-- Parse the continuation of an array after one element. -/
def parseElemsRest : ℕ → List Char → Option (List Json × List Char)
  | 0, _ => none
  | fuel + 1, cs =>
    match skipWs cs with
    | ']' :: rest => some ([], rest)
    | ',' :: rest =>
      (parseVal fuel rest).bind (fun p =>
        (parseElemsRest fuel p.2).map (fun q => (p.1 :: q.1, q.2)))
    | _ => none

/-- Parse an object body after the opening brace. -/
def parseMembersStart : ℕ → List Char → Option (Json × List Char)
  | 0, _ => none
  | fuel + 1, cs =>
    match skipWs cs with
    | [] => none
    | c :: rest =>
      if c = rbrace then some (Json.obj [], rest)
      else
        (parseMember fuel (c :: rest)).bind (fun p =>
          (parseMembersRest fuel p.2).map (fun q => (Json.obj (p.1 :: q.1), q.2)))

/-- Parse one `key : value` member. -/
def parseMember : ℕ → List Char → Option ((String × Json) × List Char)
  | 0, _ => none
  | fuel + 1, cs =>
    match skipWs cs with
    | '"' :: rest =>
      (parseStringChars rest).bind (fun p =>
        match skipWs p.2 with
        | ':' :: rest2 => (parseVal fuel rest2).map (fun q => ((String.mk p.1, q.1), q.2))
        | _ => none)
    | _ => none

/-- Parse the continuation of an object after one member. -/
def parseMembersRest : ℕ → List Char → Option (List (String × Json) × List Char)
  | 0, _ => none
  | fuel + 1, cs =>
    match skipWs cs with
    | [] => none
    | c :: rest =>
      if c = rbrace then some ([], rest)
      else if c = ',' then
        (parseMember fuel rest).bind (fun p =>
          (parseMembersRest fuel p.2).map (fun q => (p.1 :: q.1, q.2)))
      else none

end

/-- Concrete model of `json.loads` on the modelled fragment: the whole
input, up to trailing whitespace, must be one JSON value. -/
def json_loads (s : String) : Option Json :=
  match parseVal (s.length + 2) s.toList with
  | some p => if (skipWs p.2).isEmpty then some p.1 else none
  | none => none

/-! ### The tenacity retry policy -/

/-- Model of `tenacity.wait_exponential(multiplier, min, max)`: the
exponential value is clamped into the closed interval from `mn` to `mx`. -/
def wait_exponential (multiplier mn mx attempt : ℕ) : ℕ :=
  Nat.max mn (Nat.min (multiplier * 2 ^ attempt) mx)

/-- The wait schedule configured in the source:
`wait_exponential(multiplier=1, min=2, max=5)`. -/
def retryWait (attempt : ℕ) : ℕ := wait_exponential 1 2 5 attempt

/-- The retry driver: run attempt `n` with `rem` attempts still allowed;
a raise on a non-final attempt waits and retries, a raise on the final
attempt is wrapped in a `RetryError` (tenacity default `reraise=False`).
Returns the result, the number of the last attempt issued, and the waits
slept between attempts. -/
def retryGo (wait : ℕ → ℕ) (body : ℕ → Except PyErr α) :
    ℕ → ℕ → Except PyErr α × ℕ × List ℕ
  | _, 0 => (.error (.retryError (.exception "no attempts allowed")), 0, [])
  | n, 1 =>
    match body n with
    | .ok a => (.ok a, n, [])
    | .error e => (.error (.retryError e), n, [])
  | n, rem + 2 =>
    match body n with
    | .ok a => (.ok a, n, [])
    | .error _ =>
      let r := retryGo wait body (n + 1) (rem + 1)
      (r.1, r.2.1, wait n :: r.2.2)

/-- Model of the `@retry(wait=..., stop=stop_after_attempt(stopAfter))`
decorator applied to `body`. -/
def tenacity_retry (stopAfter : ℕ) (wait : ℕ → ℕ) (body : ℕ → Except PyErr α) :
    Except PyErr α × ℕ × List ℕ :=
  retryGo wait body 1 stopAfter

/-- Outcome of one raw call to the external provider. -/
inductive AttemptOutcome where
  | ok (content : String) : AttemptOutcome
  | err (status : Option Int) (msg : String) : AttemptOutcome

/-- One attempt of `query_openrouter` (app.py lines 40 to 54): an
`OpenAIError` with status 503 is converted to the distinguished
temporarily-unavailable exception, any other provider error is re-raised. -/
def query_openrouter_once (attempts : ℕ → AttemptOutcome) (n : ℕ) : Except PyErr String :=
  match attempts n with
  | .ok content => .ok content
  | .err st m =>
    if st = some 503 then
      .error (.exception "Model temporarily unavailable. Please try again later.")
    else
      .error (.openAIError st m)

/-- The retry-wrapped model client call of the `/diagnose` path. -/
def query_openrouter (attempts : ℕ → AttemptOutcome) : Except PyErr String × ℕ × List ℕ :=
  tenacity_retry 2 retryWait (query_openrouter_once attempts)

/-! ### The `/diagnose` handler -/

/-- The JSON body of a `/diagnose` response.  Body fields that a given
branch does not emit are `none` respectively `[]`. -/
structure DiagResponse where
  status : ℕ
  error : Option String
  diagnosis : Option String
  conditions : Option Json
  urgent : Option Json
  consult : Option Json
  homecare : Option Json
  disclaimer : Option String
  queried_models : List String
  skipped_models : List String

def noModelsMsg : String :=
  "No AI models were available to process your request. Please check API configurations."

def parseFailMsg : String := "Failed to parse AI response. Please try again."

def disclaimerMsg : String :=
  "This is not veterinary advice. Please consult a licensed veterinarian for accurate diagnosis and treatment."

def demandMsg : String :=
  "The AI model is currently unavailable due to high demand. Please try again later."

def genericMsg : String := "An unexpected error occurred. Please try again."

/-- An error-only response body. -/
def mkErr (status : ℕ) (msg : String) (skipped : List String) : DiagResponse :=
  ⟨status, some msg, none, none, none, none, none, none, [], skipped⟩

/-- The 200 body of `/diagnose` (app.py lines 129 to 140); the subscript
lookups on the parsed reply can raise. -/
def buildSuccess (r : Json) (results : List Condition) : Except PyErr DiagResponse :=
  match r.getItem "conditions" with
  | .error e => .error e
  | .ok conds =>
    match r.getItem "urgent" with
    | .error e => .error e
    | .ok urgent =>
      match r.getItem "consult" with
      | .error e => .error e
      | .ok consult =>
        match r.getItem "homecare" with
        | .error e => .error e
        | .ok homecare =>
          .ok ⟨200, none, some (get_highest_ranked_diagnosis results), some conds,
                some urgent, some consult, some homecare, some disclaimerMsg,
                ["OpenRouter"], []⟩

/-- The try block of the `diagnose` handler (app.py lines 105 to 140),
returning the response or the escaping exception, together with the number
of external attempts issued. -/
def diagnose_try (loads : String → Option Json) (apiKey : Bool)
    (attempts : ℕ → AttemptOutcome) : Except PyErr DiagResponse × ℕ :=
  if apiKey then
    let q := query_openrouter attempts
    match q.1 with
    | .error e => (.error e, q.2.1)
    | .ok content =>
      match process_response loads content with
      | some r =>
        if truthy r then
          match get_diagnoses (some r) with
          | .error e => (.error e, q.2.1)
          | .ok results =>
            if results.isEmpty then (.ok (mkErr 500 parseFailMsg []), q.2.1)
            else (buildSuccess r results, q.2.1)
        else (.ok (mkErr 503 noModelsMsg ["OpenRouter (API error)"]), q.2.1)
      | none => (.ok (mkErr 503 noModelsMsg ["OpenRouter (API error)"]), q.2.1)
  else
    (.ok (mkErr 503 noModelsMsg ["OpenRouter (no API key)"]), 0)

/-- The `diagnose` handler with its except boundary (app.py lines 103 to
145): an escaping exception whose text mentions the temporarily-unavailable
message becomes a 503, any other becomes a generic 500. -/
def diagnose (loads : String → Option Json) (apiKey : Bool)
    (attempts : ℕ → AttemptOutcome) : DiagResponse × ℕ :=
  match diagnose_try loads apiKey attempts with
  | (.ok r, n) => (r, n)
  | (.error e, n) =>
    if strContains "Model temporarily unavailable" e.str then (mkErr 503 demandMsg [], n)
    else (mkErr 500 genericMsg [], n)

/-! ### The detail memoizer and the `/veterinary-details` handler -/

/-- Cache key of `query_veterinary_details`: the exact
(diagnosis, species, breed) triple. -/
abbrev VKey := String × String × String

/-- The `functools.lru_cache` store, most recently used first.  The cached
value is the return of the wrapped function: the parsed reply or `None`. -/
abbrev VetCache := List (VKey × Option Json)

/-- Cache lookup by exact key equality. -/
def lruLookup (c : VetCache) (k : VKey) : Option (Option Json) :=
  (c.find? (fun e => e.1 == k)).map (fun e => e.2)

/-- Move a key to the most-recently-used position. -/
def lruTouch (c : VetCache) (k : VKey) (v : Option Json) : VetCache :=
  (k, v) :: c.filter (fun e => !(e.1 == k))

/-- Model of one call through `@lru_cache(maxsize=128)`: a resident key is
answered from the store (and refreshed) without calling `f`; a miss calls
`f`, caches a normal return (also `None`) as most recently used, truncating
to 128 entries, and caches nothing when `f` raises.  The boolean reports
whether the external call `f` was issued. -/
def vetCacheCall (f : VKey → Except PyErr (Option Json)) (c : VetCache) (k : VKey) :
    Except PyErr (Option Json) × VetCache × Bool :=
  match lruLookup c k with
  | some v => (.ok v, lruTouch c k v, false)
  | none =>
    match f k with
    | .ok v => (.ok v, ((k, v) :: c).take 128, true)
    | .error e => (.error e, c, true)

/-- One attempt of the wrapped `query_veterinary_details` body (app.py
lines 149 to 186): call the provider, coerce the reply exactly as
`process_response` does (the source duplicates those lines), translate a
503 provider error to the distinguished exception, re-raise the rest. -/
def query_veterinary_details_once (loads : String → Option Json)
    (attempts : ℕ → AttemptOutcome) (n : ℕ) : Except PyErr (Option Json) :=
  match attempts n with
  | .ok content => .ok (process_response loads content)
  | .err st m =>
    if st = some 503 then
      .error (.exception "Model temporarily unavailable. Please try again later.")
    else
      .error (.openAIError st m)

/-- The retry-wrapped veterinary-details query (inside the cache). -/
def query_veterinary_details_retry (loads : String → Option Json)
    (attempts : ℕ → AttemptOutcome) : Except PyErr (Option Json) × ℕ × List ℕ :=
  tenacity_retry 2 retryWait (query_veterinary_details_once loads attempts)

/-- The request body of `/veterinary-details` (fields may be absent). -/
structure VetRequest where
  diagnosis : Option String
  species : Option String
  breed : Option String

/-- The JSON body of a `/veterinary-details` response. -/
structure VetResponse where
  status : ℕ
  error : Option String
  diagnosis : Option String
  species : Option String
  breed : Option String
  veterinary_details : Option Json
  queried_models : List String
  skipped_models : List String

/-- An error-only `/veterinary-details` body. -/
def mkVetErr (status : ℕ) (msg : String) (skipped : List String) : VetResponse :=
  ⟨status, some msg, none, none, none, none, [], skipped⟩

/-- The `veterinary_details` handler (app.py lines 188 to 228), over the
cached external call `f` and the current cache state.  Returns the
response, the new cache, and whether an external call was issued. -/
def veterinary_details (apiKey : Bool) (f : VKey → Except PyErr (Option Json))
    (cache : VetCache) (body : VetRequest) : VetResponse × VetCache × Bool :=
  match body.diagnosis with
  | none => (mkVetErr 400 "Diagnosis is required" [], cache, false)
  | some d =>
    if d = "" then (mkVetErr 400 "Diagnosis is required" [], cache, false)
    else
      let species := body.species.getD "Unknown"
      let breed := body.breed.getD "Mixed"
      if apiKey then
        match vetCacheCall f cache (d, species, breed) with
        | (.error e, c1, called) =>
          if strContains "Model temporarily unavailable" e.str then
            (mkVetErr 503 demandMsg [], c1, called)
          else
            (mkVetErr 500 genericMsg [], c1, called)
        | (.ok details, c1, called) =>
          if optTruthy details then
            (⟨200, none, some d, some species, some breed, details, ["OpenRouter"], []⟩,
             c1, called)
          else
            (mkVetErr 500
              "Failed to parse AI response for veterinary details. Please try again." [],
             c1, called)
      else
        (mkVetErr 503 "No AI models available" ["OpenRouter (no API key)"], cache, false)

/-- The `/veterinary-details` endpoint assembled with the real cached,
retried provider query. -/
def vet_endpoint (loads : String → Option Json) (apiKey : Bool)
    (provider : VKey → ℕ → AttemptOutcome) (cache : VetCache) (body : VetRequest) :
    VetResponse × VetCache × Bool :=
  veterinary_details apiKey
    (fun k => (query_veterinary_details_retry loads (provider k)).1) cache body

/-! ### Helper lemmas -/

/-- Unfolding one step of the Python maximum. -/
theorem pyMax_cons (x y : Condition) (ys : List Condition) :
    pyMax x (y :: ys) = pyMax (if x.likelihood < y.likelihood then y else x) ys := by
  simp [pyMax]

/-- The Python maximum is an element of the list and its likelihood bounds
every likelihood in the list. -/
theorem pyMax_spec (x : Condition) (xs : List Condition) :
    pyMax x xs ∈ x :: xs ∧ ∀ c ∈ x :: xs, c.likelihood ≤ (pyMax x xs).likelihood := by
  induction xs generalizing x with
  | nil => simp [pyMax]
  | cons y ys ih =>
    rw [pyMax_cons]
    rcases ih (if x.likelihood < y.likelihood then y else x) with ⟨hmem, hmax⟩
    constructor
    · rcases List.mem_cons.mp hmem with h | h
      · rw [h]
        by_cases hxy : x.likelihood < y.likelihood <;> simp [hxy]
      · simp [List.mem_cons, h]
    · intro c hc
      rcases List.mem_cons.mp hc with rfl | hc1
      · calc c.likelihood ≤ (if c.likelihood < y.likelihood then y else c).likelihood := by
              by_cases hxy : c.likelihood < y.likelihood <;> simp [hxy]
              exact le_of_lt hxy
          _ ≤ _ := hmax _ (List.mem_cons_self _ _)
      rcases List.mem_cons.mp hc1 with rfl | hc2
      · calc c.likelihood ≤ (if x.likelihood < c.likelihood then c else x).likelihood := by
              by_cases hxy : x.likelihood < c.likelihood <;> simp [hxy]
              omega
          _ ≤ _ := hmax _ (List.mem_cons_self _ _)
      · exact hmax c (List.mem_cons_of_mem _ hc2)

instance : IsTotal Condition likGe := ⟨fun a b => le_total b.likelihood a.likelihood⟩

instance : IsTrans Condition likGe := ⟨fun _ _ _ hab hbc => le_trans hbc hab⟩

/-- The modelled sort is a permutation of its input. -/
theorem pySortDesc_perm (l : List Condition) : List.Perm (pySortDesc l) l :=
  List.perm_insertionSort likGe l

/-- The modelled sort is sorted descending by likelihood. -/
theorem pySortDesc_sorted (l : List Condition) : List.Sorted likGe (pySortDesc l) :=
  List.sorted_insertionSort likGe l

/-- In a descending-sorted list, every dropped element is bounded by every
taken element. -/
theorem sorted_take_drop (l : List Condition) (h : List.Sorted likGe l) (n : ℕ) :
    ∀ a ∈ l.take n, ∀ b ∈ l.drop n, b.likelihood ≤ a.likelihood := by
  have hp : List.Pairwise likGe (l.take n ++ l.drop n) := by
    rw [List.take_append_drop]; exact h
  exact fun a ha b hb => (List.pairwise_append.mp hp).2.2 a ha b hb

/-- Dropping while a predicate holds skips a block on which it holds
everywhere. -/
theorem dropWhile_append_all {p : Char → Bool} {a : List Char} (l : List Char)
    (h : ∀ x ∈ a, p x = true) : (a ++ l).dropWhile p = l.dropWhile p := by
  induction a with
  | nil => rfl
  | cons c cs ih =>
    have hc : p c = true := h c (List.mem_cons_self _ _)
    simp only [List.cons_append, List.dropWhile_cons, hc, if_true]
    exact ih (fun x hx => h x (List.mem_cons_of_mem _ hx))

/-- The greedy brace match on a decomposed text: with no opening brace
before the shown one and no closing brace after the shown one, the match
runs from the first opening brace through the last closing brace. -/
theorem braceMatch_decomp (a b c : List Char)
    (ha : lbrace ∉ a) (hc : rbrace ∉ c) :
    braceMatch (a ++ lbrace :: (b ++ rbrace :: c)) = some (lbrace :: (b ++ [rbrace])) := by
  have h1 : (a ++ lbrace :: (b ++ rbrace :: c)).dropWhile (fun ch => ch != lbrace)
      = lbrace :: (b ++ rbrace :: c) := by
    rw [dropWhile_append_all _ (fun x hx => by
      simp only [bne_iff_ne, ne_eq, decide_eq_true_eq]
      exact fun hxe => ha (hxe ▸ hx))]
    simp [List.dropWhile_cons]
  have h2 : (lbrace :: (b ++ rbrace :: c)).reverse
      = c.reverse ++ rbrace :: (b.reverse ++ [lbrace]) := by
    simp [List.reverse_cons, List.reverse_append, List.append_assoc]
  have h3 : (c.reverse ++ rbrace :: (b.reverse ++ [lbrace])).dropWhile
        (fun ch => ch != rbrace)
      = rbrace :: (b.reverse ++ [lbrace]) := by
    rw [dropWhile_append_all _ (fun x hx => by
      simp only [bne_iff_ne, ne_eq, decide_eq_true_eq]
      exact fun hxe => hc (hxe ▸ (List.mem_reverse.mp hx)))]
    simp [List.dropWhile_cons]
  have h4 : (rbrace :: (b.reverse ++ [lbrace])).reverse = lbrace :: (b ++ [rbrace]) := by
    simp [List.reverse_cons, List.reverse_append]
  have h5 : 2 ≤ (lbrace :: (b ++ [rbrace])).length := by
    simp
  simp only [braceMatch]
  rw [h1, h2, h3, h4]
  exact if_pos h5

/-- A key just refreshed by the memoizer is resident at the front. -/
theorem lruLookup_touch (c : VetCache) (k : VKey) (v : Option Json) :
    lruLookup (lruTouch c k v) k = some v := by
  simp [lruLookup, lruTouch, List.find?_cons]

/-- A key at the front of the store is resident. -/
theorem lruLookup_cons_self (c : VetCache) (k : VKey) (v : Option Json) :
    lruLookup ((k, v) :: c) k = some v := by
  simp [lruLookup, List.find?_cons]

/-- Filtering out a present element shortens the list strictly. -/
theorem length_filter_lt_of_mem {α : Type} {p : α → Bool} {l : List α} {x : α}
    (hx : x ∈ l) (hpx : p x = false) : (l.filter p).length < l.length := by
  induction l with
  | nil => cases hx
  | cons a l ih =>
    by_cases hpa : p a = true
    · rcases List.mem_cons.mp hx with rfl | hx1
      · rw [hpa] at hpx; cases hpx
      · simp only [List.filter_cons, hpa, if_true, List.length_cons]
        exact Nat.succ_lt_succ (ih hx1)
    · have hpa2 : p a = false := by revert hpa; cases p a <;> simp
      simp only [List.filter_cons, hpa2, Bool.false_eq_true, if_false, List.length_cons]
      exact Nat.lt_succ_of_le (List.length_filter_le p l)

/-- A left-to-right extraction fails at the first failing entry when every
earlier entry extracts. -/
theorem mapExtract_append_error (l1 : List Json) (x : Json) (l2 : List Json) (err : PyErr)
    (h1 : ∀ a ∈ l1, ∃ b, extractCondition a = .ok b)
    (hx : extractCondition x = .error err) :
    mapExtract (l1 ++ x :: l2) = .error err := by
  induction l1 with
  | nil => simp [mapExtract, hx]
  | cons a l ih =>
    obtain ⟨b, hb⟩ := h1 a (List.mem_cons_self _ _)
    have ih2 := ih (fun a2 ha2 => h1 a2 (List.mem_cons_of_mem _ ha2))
    simp only [List.cons_append, mapExtract, hb, List.append_eq, ih2]

/-- A client call whose first attempt returns does not retry. -/
theorem query_openrouter_first_ok (attempts : ℕ → AttemptOutcome) (content : String)
    (h : attempts 1 = .ok content) :
    query_openrouter attempts = (.ok content, 1, []) := by
  unfold query_openrouter tenacity_retry
  simp [retryGo, query_openrouter_once, h]

/-! ### The claims -/

/-- C3.  The summarizer returns the fixed string on an empty list; for one
or two conditions it reports a maximum-likelihood condition of the list as
"Name (X%)"; for three or more it returns the prefixed comma-joined
rendering of the first three entries of the stable descending sort, which
is a permutation of the input, is sorted descending by likelihood, and
whose first three entries dominate all dropped entries. -/
theorem claim3_summarize (results : List Condition) :
    (results = [] → get_highest_ranked_diagnosis results = "No diagnosis available")
  ∧ (results ≠ [] → results.length < 3 →
      ∃ m, m ∈ results ∧ (∀ c ∈ results, c.likelihood ≤ m.likelihood) ∧
        get_highest_ranked_diagnosis results = fmtCondition m)
  ∧ (3 ≤ results.length →
      get_highest_ranked_diagnosis results =
        "Top 3 possible diagnoses: " ++
          String.intercalate ", " (((pySortDesc results).take 3).map fmtCondition)
      ∧ List.Perm (pySortDesc results) results
      ∧ List.Sorted likGe (pySortDesc results)
      ∧ ∀ a ∈ (pySortDesc results).take 3, ∀ b ∈ (pySortDesc results).drop 3,
          b.likelihood ≤ a.likelihood) := by
  refine ⟨fun h => by rw [h]; rfl, ?_, ?_⟩
  · intro hne hlt
    match results with
    | x :: xs =>
      refine ⟨pyMax x xs, (pyMax_spec x xs).1, (pyMax_spec x xs).2, ?_⟩
      simp only [get_highest_ranked_diagnosis]
      rw [if_neg (by omega)]
  · intro h3
    match results with
    | x :: xs =>
      refine ⟨?_, pySortDesc_perm _, pySortDesc_sorted _,
        sorted_take_drop _ (pySortDesc_sorted _) 3⟩
      simp only [get_highest_ranked_diagnosis]
      rw [if_pos h3]

/-- Witness for C3 at a concrete three-element list. -/
theorem claim3_witness :
    get_highest_ranked_diagnosis [⟨"A", 10, ""⟩, ⟨"B", 30, ""⟩, ⟨"C", 20, ""⟩] =
      "Top 3 possible diagnoses: B (30%), C (20%), A (10%)" := by
  have h := ((claim3_summarize [⟨"A", 10, ""⟩, ⟨"B", 30, ""⟩, ⟨"C", 20, ""⟩]).2.2
    (by decide)).1
  exact h.trans (by decide)

/-- C4.  The response coercer returns the strict parse when the whole text
parses; otherwise it hands exactly the substring from the first opening
brace through the last closing brace to the parser; when the text has no
such substring or the extracted substring does not parse either, it
returns failure rather than raising. -/
theorem claim4_coercer (loads : String → Option Json) (content : String) :
    (∀ j, loads content = some j → process_response loads content = some j)
  ∧ (loads content = none →
      ∀ a b c : List Char, content.toList = a ++ lbrace :: (b ++ rbrace :: c) →
        lbrace ∉ a → rbrace ∉ c →
        process_response loads content = loads (String.mk (lbrace :: (b ++ [rbrace]))))
  ∧ (loads content = none → braceSubstring content = none →
      process_response loads content = none)
  ∧ (loads content = none → ∀ s, braceSubstring content = some s →
      process_response loads content = loads s) := by
  refine ⟨?_, ?_, ?_, ?_⟩
  · intro j hj
    simp [process_response, hj]
  · intro hn a b c hdec ha hc
    have hb : braceSubstring content = some (String.mk (lbrace :: (b ++ [rbrace]))) := by
      unfold braceSubstring
      rw [hdec, braceMatch_decomp a b c ha hc]
      rfl
    cases hl : loads (String.mk (lbrace :: (b ++ [rbrace]))) with
    | none => simp [process_response, hn, hb, hl]
    | some j => simp [process_response, hn, hb, hl]
  · intro hn hb
    simp [process_response, hn, hb]
  · intro hn s hb
    cases hl : loads s with
    | none => simp [process_response, hn, hb, hl]
    | some j => simp [process_response, hn, hb, hl]

/-- Witness for C4: a code-fence style reply parses via the fallback. -/
theorem claim4_witness :
    process_response json_loads "Result: \x7b\"a\": 1\x7d done" =
      some (Json.obj [("a", Json.num 1)]) := by
  have h := (claim4_coercer json_loads "Result: \x7b\"a\": 1\x7d done").2.1 (by rfl)
    ("Result: ".toList) ("\"a\": 1".toList) (" done".toList)
    (by decide) (by decide) (by decide)
  exact h.trans (by rfl)

/-- C5.  The retried client call issues at most 2 external attempts, and
every wait slept between attempts lies in the 2-to-5-second range. -/
theorem claim5_retry_bounds (attempts : ℕ → AttemptOutcome) :
    (query_openrouter attempts).2.1 ≤ 2
  ∧ ∀ w ∈ (query_openrouter attempts).2.2, 2 ≤ w ∧ w ≤ 5 := by
  unfold query_openrouter tenacity_retry
  cases h1 : query_openrouter_once attempts 1 with
  | ok a => simp [retryGo, h1]
  | error e =>
    cases h2 : query_openrouter_once attempts 2 with
    | ok a2 => simp [retryGo, h1, h2, retryWait, wait_exponential]
    | error e2 => simp [retryGo, h1, h2, retryWait, wait_exponential]

/-- Witness for C5 with a provider failing every attempt: exactly 2
attempts, and the slept wait 2 lies in the range. -/
theorem claim5_witness :
    (query_openrouter (fun _ => AttemptOutcome.err (some 500) "boom")).2.1 ≤ 2
  ∧ (2 ≤ 2 ∧ 2 ≤ 5) :=
  ⟨(claim5_retry_bounds (fun _ => AttemptOutcome.err (some 500) "boom")).1,
   (claim5_retry_bounds (fun _ => AttemptOutcome.err (some 500) "boom")).2 2 (by decide)⟩

/-- C1 (amended).  With a configured credential and a reply on which the
coercer fails, `/diagnose` responds 503 with "OpenRouter (API error)" in
skipped_models and the no-models error message (the provider is counted as
skipped, so the no-queried-models branch fires before the 500 branch). -/
theorem claim1_unparseable_503 (loads : String → Option Json)
    (attempts : ℕ → AttemptOutcome) (content : String)
    (h1 : attempts 1 = .ok content) (h2 : process_response loads content = none) :
    (diagnose loads true attempts).1.status = 503
  ∧ (diagnose loads true attempts).1.skipped_models = ["OpenRouter (API error)"]
  ∧ (diagnose loads true attempts).1.error = some noModelsMsg := by
  have hq := query_openrouter_first_ok attempts content h1
  simp [diagnose, diagnose_try, hq, h2, mkErr]

/-- Counterexample to C1 as stated: a completely non-JSON reply makes
`/diagnose` respond 503, not 500. -/
theorem claim1_counterexample :
    (diagnose json_loads true (fun _ => AttemptOutcome.ok "totally not json")).1.status ≠ 500
  ∧ (diagnose json_loads true (fun _ => AttemptOutcome.ok "totally not json")).1.status = 503 := by
  constructor
  · decide
  · rfl

/-- Witness for the amended C1 at a concrete unparseable reply. -/
theorem claim1_witness :
    (diagnose json_loads true (fun _ => AttemptOutcome.ok "no braces here")).1.status = 503 :=
  (claim1_unparseable_503 json_loads (fun _ => AttemptOutcome.ok "no braces here")
    "no braces here" rfl (by rfl)).1

/-- C7.  With no configured credential, `/diagnose` issues no external
call and returns 503 with "OpenRouter (no API key)" as the skipped model
and no queried models. -/
theorem claim7_no_key (loads : String → Option Json) (attempts : ℕ → AttemptOutcome) :
    (diagnose loads false attempts).1.status = 503
  ∧ (diagnose loads false attempts).1.skipped_models = ["OpenRouter (no API key)"]
  ∧ (diagnose loads false attempts).1.queried_models = []
  ∧ (diagnose loads false attempts).2 = 0 :=
  ⟨rfl, rfl, rfl, rfl⟩

/-- C2.  The memoizer: a completed lookup leaves the key resident, so a
second lookup with the identical triple is answered from the store without
an external call; the store never grows beyond 128 entries and keeps its
keys distinct; at capacity a fresh key evicts exactly the
least-recently-used entry; and a `/veterinary-details` request whose
triple is resident issues no external call. -/
theorem claim2_memoized_lru (f : VKey → Except PyErr (Option Json)) (c : VetCache) (k : VKey) :
    (∀ v c1 called, vetCacheCall f c k = (.ok v, c1, called) →
        vetCacheCall f c1 k = (.ok v, lruTouch c1 k v, false))
  ∧ (c.length ≤ 128 → (vetCacheCall f c k).2.1.length ≤ 128)
  ∧ ((c.map Prod.fst).Nodup → ((vetCacheCall f c k).2.1.map Prod.fst).Nodup)
  ∧ (lruLookup c k = none → c.length = 128 → ∀ v, f k = .ok v →
        (vetCacheCall f c k).2.1 = (k, v) :: c.take 127)
  ∧ (∀ d sp br v, ¬ d = "" → lruLookup c (d, sp, br) = some v →
        (veterinary_details true f c ⟨some d, some sp, some br⟩).2.2 = false) := by
  refine ⟨?_, ?_, ?_, ?_, ?_⟩
  · intro v c1 called h
    cases hl : lruLookup c k with
    | some w =>
      simp only [vetCacheCall, hl, Prod.mk.injEq, Except.ok.injEq] at h
      obtain ⟨hv, hc1, -⟩ := h
      subst hv
      subst hc1
      simp [vetCacheCall, lruLookup_touch]
    | none =>
      cases hf : f k with
      | ok u =>
        simp only [vetCacheCall, hl, hf, Prod.mk.injEq, Except.ok.injEq] at h
        obtain ⟨hv, hc1, -⟩ := h
        subst hv
        subst hc1
        simp [vetCacheCall, lruLookup_cons_self]
      | error e =>
        simp [vetCacheCall, hl, hf] at h
  · intro hlen
    cases hl : lruLookup c k with
    | some w =>
      obtain ⟨e, he⟩ : ∃ e, c.find? (fun e => e.1 == k) = some e := by
        unfold lruLookup at hl
        cases hfe : c.find? (fun e => e.1 == k) with
        | none => rw [hfe] at hl; cases hl
        | some e => exact ⟨e, rfl⟩
      have hmem := List.mem_of_find?_eq_some he
      have hpred := List.find?_some he
      have hlt : (c.filter (fun e2 => !(e2.1 == k))).length < c.length :=
        length_filter_lt_of_mem hmem (by simp [hpred])
      simp only [vetCacheCall, hl, lruTouch, List.length_cons]
      omega
    | none =>
      cases hf : f k with
      | ok u =>
        simp only [vetCacheCall, hl, hf]
        exact List.length_take_le 128 ((k, u) :: c)
      | error e =>
        simpa [vetCacheCall, hl, hf] using hlen
  · intro hnd
    cases hl : lruLookup c k with
    | some w =>
      simp only [vetCacheCall, hl, lruTouch, List.map_cons, List.nodup_cons]
      constructor
      · intro hk
        obtain ⟨e, he, heq⟩ := List.mem_map.mp hk
        have hpe := (List.mem_filter.mp he).2
        simp [heq] at hpe
      · exact List.Nodup.sublist ((List.filter_sublist _).map Prod.fst) hnd
    | none =>
      have hall : ∀ e ∈ c, (e.1 == k) = false := by
        unfold lruLookup at hl
        cases hfe : c.find? (fun e => e.1 == k) with
        | some e => simp [hfe] at hl
        | none =>
          intro e he
          have := List.find?_eq_none.mp hfe e he
          revert this
          cases (e.1 == k) <;> simp
      cases hf : f k with
      | ok u =>
        simp only [vetCacheCall, hl, hf]
        have hkc : k ∉ c.map Prod.fst := by
          intro hk
          obtain ⟨e, he, heq⟩ := List.mem_map.mp hk
          have := hall e he
          simp [heq] at this
        have hnodup : (((k, u) :: c).map Prod.fst).Nodup := by
          rw [List.map_cons]
          exact List.nodup_cons.mpr ⟨hkc, hnd⟩
        exact List.Nodup.sublist ((List.take_sublist 128 _).map Prod.fst) hnodup
      | error e =>
        simpa [vetCacheCall, hl, hf] using hnd
  · intro hl _hlen v hf
    simp only [vetCacheCall, hl, hf]
    have h : (128 : ℕ) = 127 + 1 := rfl
    rw [h, List.take_succ_cons]
  · intro d sp br v hd hlv
    simp only [veterinary_details, Option.getD]
    rw [if_neg hd]
    simp only [vetCacheCall, hlv]
    cases h : optTruthy v <;> simp [h]

/-- Witness for C2: after a first completed lookup stored the key, the
second identical lookup is a hit with no external call. -/
theorem claim2_witness :
    vetCacheCall (fun _ => .ok (some Json.null))
        [(("otitis", "dog", "beagle"), some Json.null)] ("otitis", "dog", "beagle") =
      (.ok (some Json.null),
       lruTouch [(("otitis", "dog", "beagle"), some Json.null)]
         ("otitis", "dog", "beagle") (some Json.null), false) :=
  (claim2_memoized_lru (fun _ => .ok (some Json.null)) [] ("otitis", "dog", "beagle")).1
    (some Json.null) [(("otitis", "dog", "beagle"), some Json.null)] true rfl

/-- A provider signalling overload (status 503) on every attempt. -/
def overloadAttempts : ℕ → AttemptOutcome := fun _ => .err (some 503) "Service overloaded"

/-- C6 (code evaluated at the failing input).  The client does convert the
overload signal into the distinguished temporarily-unavailable exception,
but retry exhaustion wraps it in a RetryError whose text does not contain
the message, so both endpoints answer a generic 500 instead of the
demand-related 503 the handlers try to produce. -/
theorem claim6_overload_generic_500 :
    (query_openrouter overloadAttempts).1 =
      .error (.retryError (.exception "Model temporarily unavailable. Please try again later."))
  ∧ strContains "Model temporarily unavailable"
      (PyErr.str (.retryError
        (.exception "Model temporarily unavailable. Please try again later."))) = false
  ∧ (diagnose json_loads true overloadAttempts).1.status = 500
  ∧ (diagnose json_loads true overloadAttempts).1.error = some genericMsg
  ∧ (vet_endpoint json_loads true (fun _ => overloadAttempts) []
      ⟨some "Parvo", none, none⟩).1.status = 500 :=
  ⟨rfl, by decide, rfl, rfl, rfl⟩

/-- C8.  A body without the diagnosis field is answered 400 with no
external call and an unchanged cache; a present diagnosis with absent
species and breed defaults them to "Unknown" and "Mixed", keys the lookup
on that triple, and echoes all three in the 200 body. -/
theorem claim8_vet_validation_defaults (f : VKey → Except PyErr (Option Json))
    (cache : VetCache) (sp br : Option String) :
    (veterinary_details true f cache ⟨none, sp, br⟩ =
        (mkVetErr 400 "Diagnosis is required" [], cache, false))
  ∧ (∀ d j c1 called, ¬ d = "" →
        vetCacheCall f cache (d, "Unknown", "Mixed") = (.ok (some j), c1, called) →
        truthy j = true →
        veterinary_details true f cache ⟨some d, none, none⟩ =
          (⟨200, none, some d, some "Unknown", some "Mixed", some j, ["OpenRouter"], []⟩,
           c1, called)) := by
  constructor
  · rfl
  · intro d j c1 called hd hcc htr
    simp only [veterinary_details, Option.getD]
    rw [if_neg hd]
    simp only [hcc, optTruthy, htr, if_true]

/-- Witness for C8 on a concrete fresh lookup with defaulted species and
breed. -/
theorem claim8_witness :
    veterinary_details true (fun _ => .ok (some (Json.obj [("Overview", Json.str "x")]))) []
        ⟨some "Parvo", none, none⟩ =
      (⟨200, none, some "Parvo", some "Unknown", some "Mixed",
          some (Json.obj [("Overview", Json.str "x")]), ["OpenRouter"], []⟩,
       [(("Parvo", "Unknown", "Mixed"), some (Json.obj [("Overview", Json.str "x")]))],
       true) :=
  (claim8_vet_validation_defaults (fun _ => .ok (some (Json.obj [("Overview", Json.str "x")])))
      [] none none).2
    "Parvo" (Json.obj [("Overview", Json.str "x")])
    [(("Parvo", "Unknown", "Mixed"), some (Json.obj [("Overview", Json.str "x")]))]
    true (by decide) rfl rfl

/-- C9.  A cached parse failure (the stored value `None`): a request with
the identical resident triple is answered 500 with no external call, and
the key stays resident, so this repeats while it remains stored. -/
theorem claim9_cached_failure_500 (f : VKey → Except PyErr (Option Json))
    (cache : VetCache) (d sp br : String)
    (hd : ¬ d = "") (hres : lruLookup cache (d, sp, br) = some none) :
    veterinary_details true f cache ⟨some d, some sp, some br⟩ =
      (mkVetErr 500
        "Failed to parse AI response for veterinary details. Please try again." [],
       lruTouch cache (d, sp, br) none, false)
  ∧ lruLookup (lruTouch cache (d, sp, br) none) (d, sp, br) = some none := by
  constructor
  · simp only [veterinary_details, Option.getD]
    rw [if_neg hd]
    simp [vetCacheCall, hres, optTruthy]
  · exact lruLookup_touch cache (d, sp, br) none

/-- Witness for C9 at a concrete cache holding a failure. -/
theorem claim9_witness :
    veterinary_details true (fun _ => .ok (some Json.null))
        [(("parvo", "dog", "mixed"), none)] ⟨some "parvo", some "dog", some "mixed"⟩ =
      (mkVetErr 500
        "Failed to parse AI response for veterinary details. Please try again." [],
       lruTouch [(("parvo", "dog", "mixed"), none)] ("parvo", "dog", "mixed") none,
       false) :=
  (claim9_cached_failure_500 (fun _ => .ok (some Json.null))
    [(("parvo", "dog", "mixed"), none)] "parvo" "dog" "mixed" (by decide) (by rfl)).1

/-- C10.  Extraction of conditions: an entry carrying name and likelihood
but no explanation extracts with the empty-string default; an entry
missing name (or having name but missing likelihood) raises the
corresponding KeyError; and through the handler boundary such a raise
becomes the generic 500 response. -/
theorem claim10_extraction_precondition :
    (∀ members nm lk,
        lookupKey members "name" = some (Json.str nm) →
        lookupKey members "likelihood" = some (Json.num lk) →
        lookupKey members "explanation" = none →
        extractCondition (Json.obj members) = .ok ⟨nm, lk, ""⟩)
  ∧ (∀ members, lookupKey members "name" = none →
        extractCondition (Json.obj members) = .error (.keyError "name"))
  ∧ (∀ members nm, lookupKey members "name" = some (Json.str nm) →
        lookupKey members "likelihood" = none →
        extractCondition (Json.obj members) = .error (.keyError "likelihood"))
  ∧ (∀ (loads : String → Option Json) (attempts : ℕ → AttemptOutcome)
        (content : String) (r condsJ : Json) (es1 : List Json) (x : Json) (es2 : List Json),
        attempts 1 = .ok content →
        loads content = some r →
        truthy r = true →
        pyContains r "conditions" = .ok true →
        Json.getItem r "conditions" = .ok condsJ →
        Json.iterate condsJ = .ok (es1 ++ x :: es2) →
        (∀ a ∈ es1, ∃ b, extractCondition a = .ok b) →
        extractCondition x = .error (.keyError "name") →
        diagnose loads true attempts = (mkErr 500 genericMsg [], 1)) := by
  refine ⟨?_, ?_, ?_, ?_⟩
  · intro members nm lk hnm hlk hex
    simp [extractCondition, Json.getItem, Json.dictGet, hnm, hlk, hex]
  · intro members hnm
    simp [extractCondition, Json.getItem, hnm]
  · intro members nm hnm hlk
    simp [extractCondition, Json.getItem, hnm, hlk]
  · intro loads attempts content r condsJ es1 x es2 h1 h2 htr hcont hget hiter hgood hx
    have hq := query_openrouter_first_ok attempts content h1
    have hpr : process_response loads content = some r := by
      simp [process_response, h2]
    have hgd : get_diagnoses (some r) = .error (.keyError "name") := by
      simp only [get_diagnoses, htr, if_true, hcont, hget, hiter]
      exact mapExtract_append_error es1 x es2 _ hgood hx
    have hsc : strContains "Model temporarily unavailable"
        (PyErr.str (.keyError "name")) = false := by decide
    simp [diagnose, diagnose_try, hq, hpr, htr, hgd, hsc]

/-- Witness for C10: a parsed reply whose single condition entry lacks the
name key drives `/diagnose` to the generic 500. -/
theorem claim10_witness :
    diagnose json_loads true
        (fun _ => AttemptOutcome.ok "\x7b\"conditions\": [\x7b\"likelihood\": 5\x7d]\x7d") =
      (mkErr 500 genericMsg [], 1) :=
  claim10_extraction_precondition.2.2.2 json_loads
    (fun _ => AttemptOutcome.ok "\x7b\"conditions\": [\x7b\"likelihood\": 5\x7d]\x7d")
    "\x7b\"conditions\": [\x7b\"likelihood\": 5\x7d]\x7d"
    (Json.obj [("conditions", Json.arr [Json.obj [("likelihood", Json.num 5)]])])
    (Json.arr [Json.obj [("likelihood", Json.num 5)]])
    [] (Json.obj [("likelihood", Json.num 5)]) []
    rfl (by rfl) rfl rfl rfl rfl
    (by intro a ha; cases ha) rfl

end VetCheck
